import Mathlib

/-
Verification of the order-validation/submission workflow and the
credential-probe sequence of the Binance futures testnet trading bot
(trading_bot.py, test_credentials.py).

Modelling conventions:
 * Python floats are modelled as rationals (ℚ); the claims under study
   concern control flow, sign tests and field presence, never rounding.
 * Python exceptions are modelled by the inductive `PyErr`; a function that
   can raise returns `Except PyErr α`.
 * The remote exchange (python-binance client) is an external collaborator;
   its behaviour is an explicit oracle argument (`net`, `ClientBehavior`).
 * Log output is modelled as a list of structured events, each with a level.
 * Python str.upper / str.strip are modelled over the ASCII range
   (`pyUpper`, `pyStrip`), which covers every string the program handles.
-/

/-- Python exception values relevant to the bot: `ValueError` (validation and
float-coercion failures), `BinanceAPIException` (carrying a status code and a
message) and `RuntimeError` (what `place_order` re-raises). -/
inductive PyErr where
  | valueError (msg : String)
  | apiException (code : Int) (msg : String)
  | runtimeError (msg : String)
deriving DecidableEq, Repr

/-- `str(e)` for the exceptions above: the carried message. -/
def errMessage : PyErr → String
  | PyErr.valueError m => m
  | PyErr.apiException _ m => m
  | PyErr.runtimeError m => m

/-- Python `s.upper()` (ASCII range). -/
def pyUpper (s : String) : String := ⟨s.data.map Char.toUpper⟩

/-- Python `s.strip()`: leading and trailing whitespace removed. -/
def pyStrip (s : String) : String :=
  ⟨((s.data.dropWhile Char.isWhitespace).reverse.dropWhile Char.isWhitespace).reverse⟩

/-- Python `s.endswith(suff)`. -/
def pyEndsWith (s suff : String) : Bool := suff.data.isSuffixOf s.data

/-- The normalisation `x.upper().strip()` applied to symbol, side and
order type in `place_order`. -/
def pyNormalize (s : String) : String := pyStrip (pyUpper s)

/-- Numeric value of a list of decimal digits. -/
def digitsVal (l : List Char) : Nat :=
  l.foldl (fun acc c => acc * 10 + (c.toNat - 48)) 0

/-- Decimal literal parsing, `[digits][.digits]` with at least one digit:
the subset of Python float syntax the bot can meet. -/
def parseUnsignedFloat (l : List Char) : Option ℚ :=
  match l.span Char.isDigit with
  | (ip, []) => if ip.isEmpty then none else some (digitsVal ip)
  | (ip, '.' :: fp) =>
      if fp.all Char.isDigit && !(ip.isEmpty && fp.isEmpty) then
        some ((digitsVal ip : ℚ) + (digitsVal fp : ℚ) / ((10 : ℚ) ^ fp.length))
      else none
  | _ => none

/-- Python `float(s)` on a string: strip whitespace, optional sign, then a
decimal literal; malformed input is a `ValueError`. -/
def parseFloat (s : String) : Option ℚ :=
  match (pyStrip s).data with
  | '+' :: rest => parseUnsignedFloat rest
  | '-' :: rest => (parseUnsignedFloat rest).map Neg.neg
  | l => parseUnsignedFloat l

/-- A quantity/price argument as passed to `place_order`: already a float
(the CLI path) or a string still to be coerced. -/
inductive PyNum where
  | float (q : ℚ)
  | str (s : String)
deriving DecidableEq, Repr

/-- Python `float(x)` as used on `quantity` and `price`: identity on floats,
parsing on strings, raising `ValueError` on malformed strings. -/
def pyFloat : PyNum → Except PyErr ℚ
  | PyNum.float q => Except.ok q
  | PyNum.str s =>
      match parseFloat s with
      | some q => Except.ok q
      | none => Except.error (PyErr.valueError
          ("could not convert string to float: \x27" ++ s ++ "\x27"))

/-- The `params` dict handed to `futures_create_order`: always symbol, side,
type and quantity; price and timeInForce only when the LIMIT branch adds
them. -/
structure OrderParams where
  symbol : String
  side : String
  type : String
  quantity : ℚ
  price : Option ℚ := none
  timeInForce : Option String := none
deriving DecidableEq, Repr

/-- The fields of the exchange response that the caller reads. -/
structure OrderResponse where
  orderId : Nat
  symbol : String
  status : String
  side : String
  type : String
  origQty : String
  executedQty : String
  price : Option String := none
  avgPrice : Option String := none
deriving DecidableEq, Repr

/-- Lines 82-117 of trading_bot.py: the validation chain of `place_order`,
in source order (symbol, side, quantity, order type, then the LIMIT price
rules), producing either the first `ValueError` raised or the normalised
request dict. -/
def validateAndBuild (symbol side order_type : String) (quantity : PyNum)
    (price : Option PyNum) : Except PyErr OrderParams :=
  if pyEndsWith (pyNormalize symbol) "USDT" = false then
    Except.error (PyErr.valueError "Symbol must be a USDT-M pair (e.g., BTCUSDT)")
  else if pyNormalize side ∉ (["BUY", "SELL"] : List String) then
    Except.error (PyErr.valueError "Side must be \x27BUY\x27 or \x27SELL\x27")
  else
    match pyFloat quantity with
    | Except.error e => Except.error e
    | Except.ok q =>
      if q ≤ 0 then Except.error (PyErr.valueError "Quantity must be positive")
      else if pyNormalize order_type ∉ (["MARKET", "LIMIT"] : List String) then
        Except.error (PyErr.valueError "Order type must be MARKET or LIMIT")
      else if pyNormalize order_type = "LIMIT" then
        match price with
        | none => Except.error (PyErr.valueError "Price is required for limit orders")
        | some pv =>
          match pyFloat pv with
          | Except.error e => Except.error e
          | Except.ok p =>
            if p ≤ 0 then Except.error (PyErr.valueError "Price must be positive")
            else Except.ok { symbol := pyNormalize symbol, side := pyNormalize side,
                             type := pyNormalize order_type, quantity := q,
                             price := some p, timeInForce := some "GTC" }
      else
        Except.ok { symbol := pyNormalize symbol, side := pyNormalize side,
                    type := pyNormalize order_type, quantity := q }

/-- Log records emitted by `place_order`. -/
inductive BotLog where
  | placingOrder (p : OrderParams)
  | orderSuccessful (r : OrderResponse)
  | orderError (msg : String)
deriving DecidableEq, Repr

/-- The message of the two `except` handlers of `place_order`:
`BinanceAPIException` gives "API Error code: message", every other exception
gives "Order failed: str(e)". -/
def wrapMsg : PyErr → String
  | PyErr.apiException code msg => "API Error " ++ toString code ++ ": " ++ msg
  | e => "Order failed: " ++ errMessage e

instance {ε α : Type} [DecidableEq ε] [DecidableEq α] : DecidableEq (Except ε α)
  | Except.ok a, Except.ok b => decidable_of_iff (a = b) (by simp)
  | Except.ok _, Except.error _ => isFalse (by simp)
  | Except.error _, Except.ok _ => isFalse (by simp)
  | Except.error e, Except.error f => decidable_of_iff (e = f) (by simp)

/-- Observable outcome of one `place_order` call: its log records, the list
of requests actually handed to `futures_create_order`, and the returned
value or raised exception. -/
structure PlaceResult where
  logs : List BotLog
  sent : List OrderParams
  outcome : Except PyErr OrderResponse
deriving DecidableEq, Repr

/-- Lines 76-131 of trading_bot.py: `place_order`, with the remote call
`futures_create_order` abstracted as the oracle `net`. The whole body runs
inside one try/except pair, so a `ValueError` raised by validation reaches
the same generic handler as a transport failure; both handlers log the
wrapped message and re-raise it as `RuntimeError`. -/
def place_order (net : OrderParams → Except PyErr OrderResponse)
    (symbol side order_type : String) (quantity : PyNum)
    (price : Option PyNum) : PlaceResult :=
  match validateAndBuild symbol side order_type quantity price with
  | Except.error e =>
      { logs := [BotLog.orderError (wrapMsg e)], sent := [],
        outcome := Except.error (PyErr.runtimeError (wrapMsg e)) }
  | Except.ok params =>
      match net params with
      | Except.ok r =>
          { logs := [BotLog.placingOrder params, BotLog.orderSuccessful r],
            sent := [params], outcome := Except.ok r }
      | Except.error e =>
          { logs := [BotLog.placingOrder params, BotLog.orderError (wrapMsg e)],
            sent := [params],
            outcome := Except.error (PyErr.runtimeError (wrapMsg e)) }

/-- Log levels of the probe records. -/
inductive LogLevel where
  | info
  | warning
  | error
deriving DecidableEq, Repr

/-- Log records emitted by `test_connection`, in the order the source emits
them. `serverTime` carries the epoch seconds (`serverTime/1000`) that the
source then formats as a UTC calendar string. -/
inductive LogEvent where
  | connSuccess (pingMs : ℚ)
  | serverTime (epochSec : Nat)
  | accountStatus (canTrade : Bool)
  | availableBalance (b : String)
  | noUsdtBalance
  | apiError (code : Int) (msg : String)
  | connTestFailed (msg : String)
deriving DecidableEq, Repr

/-- The level each probe record is logged at. -/
def logLevel : LogEvent → LogLevel
  | LogEvent.connSuccess _ => LogLevel.info
  | LogEvent.serverTime _ => LogLevel.info
  | LogEvent.accountStatus _ => LogLevel.info
  | LogEvent.availableBalance _ => LogLevel.info
  | LogEvent.noUsdtBalance => LogLevel.warning
  | LogEvent.apiError _ _ => LogLevel.error
  | LogEvent.connTestFailed _ => LogLevel.error

/-- Lines 69-74 of trading_bot.py: the record the `except` handlers of
`test_connection` log before re-raising: `BinanceAPIException` goes to the
"API Error" record, everything else to "Connection test failed". -/
def logExc : PyErr → LogEvent
  | PyErr.apiException code msg => LogEvent.apiError code msg
  | e => LogEvent.connTestFailed (errMessage e)

/-- The field of `futures_account()` that the probe reads. -/
structure AccountInfo where
  canTrade : Bool
deriving DecidableEq, Repr

/-- One entry of the `futures_account_balance()` list. -/
structure BalanceEntry where
  asset : String
  balance : String
deriving DecidableEq, Repr

/-- Behaviour of the remote exchange during one probe run: what each
endpoint returns, or the exception it raises. `futures_time` carries the
`serverTime` field in epoch milliseconds. -/
structure ClientBehavior where
  futures_ping : Except PyErr Unit
  futures_time : Except PyErr Nat
  futures_account : Except PyErr AccountInfo
  futures_account_balance : Except PyErr (List BalanceEntry)

/-- Lines 40-74 of trading_bot.py: `test_connection`. Runs ping, server
time, account status and balance in order; the first exception is logged as
an error and re-raised (returned as `some e`); a missing USDT balance entry
only logs a warning and the run still succeeds. `pingMs` is the measured
round-trip latency (external real time, passed in). -/
def test_connection (pingMs : ℚ) (c : ClientBehavior) :
    List LogEvent × Option PyErr :=
  match c.futures_ping with
  | Except.error e => ([logExc e], some e)
  | Except.ok _ =>
    match c.futures_time with
    | Except.error e => ([logExc e], some e)
    | Except.ok t =>
      match c.futures_account with
      | Except.error e =>
          ([LogEvent.connSuccess pingMs, LogEvent.serverTime (t / 1000),
            logExc e], some e)
      | Except.ok acct =>
        match c.futures_account_balance with
        | Except.error e =>
            ([LogEvent.connSuccess pingMs, LogEvent.serverTime (t / 1000),
              LogEvent.accountStatus acct.canTrade, logExc e], some e)
        | Except.ok balance =>
          match balance.find? (fun item => item.asset == "USDT") with
          | some usdt =>
              ([LogEvent.connSuccess pingMs, LogEvent.serverTime (t / 1000),
                LogEvent.accountStatus acct.canTrade,
                LogEvent.availableBalance usdt.balance], none)
          | none =>
              ([LogEvent.connSuccess pingMs, LogEvent.serverTime (t / 1000),
                LogEvent.accountStatus acct.canTrade,
                LogEvent.noUsdtBalance], none)

/-- The first exception the probe sequence meets, in source order;
`none` when every call succeeds. -/
def firstFailure (c : ClientBehavior) : Option PyErr :=
  match c.futures_ping with
  | Except.error e => some e
  | Except.ok _ =>
    match c.futures_time with
    | Except.error e => some e
    | Except.ok _ =>
      match c.futures_account with
      | Except.error e => some e
      | Except.ok _ =>
        match c.futures_account_balance with
        | Except.error e => some e
        | Except.ok _ => none

/-- Oracle for runs where the remote call is never reached or irrelevant. -/
def netStub : OrderParams → Except PyErr OrderResponse :=
  fun _ => Except.error (PyErr.valueError "stub")

/-- Oracle modelling an exchange that rejects every order with a
`BinanceAPIException`. -/
def netApiReject : OrderParams → Except PyErr OrderResponse :=
  fun _ => Except.error (PyErr.apiException (-2019) "Margin is insufficient.")

/-- The normalised request of a plain MARKET buy of 2 BTCUSDT, used as the
concrete accepted request in witnesses. -/
def marketReq : OrderParams :=
  { symbol := "BTCUSDT", side := "BUY", type := "MARKET", quantity := 2 }

/-- Probe behaviour: every endpoint succeeds but no balance entry has the
USDT asset. -/
def probeNoUsdt : ClientBehavior :=
  { futures_ping := Except.ok ()
    futures_time := Except.ok 1717171717000
    futures_account := Except.ok { canTrade := true }
    futures_account_balance := Except.ok [{ asset := "BTC", balance := "1.0" }] }

/-- Probe behaviour: ping succeeds, the server-time call raises a
`BinanceAPIException`. -/
def probeTimeFail : ClientBehavior :=
  { futures_ping := Except.ok ()
    futures_time := Except.error (PyErr.apiException (-1021) "Timestamp outside recvWindow")
    futures_account := Except.ok { canTrade := true }
    futures_account_balance := Except.ok [] }

/-- The fields of `futures_account()` that test_credentials.py reads. -/
structure ScriptAccountInfo where
  canTrade : Bool
  canWithdraw : Bool
  canDeposit : Bool
deriving DecidableEq, Repr

/-- Behaviour of the remote exchange during one run of the standalone
credential script (test_credentials.py): what each endpoint returns, or the
exception it raises. -/
structure ScriptClientBehavior where
  futures_ping : Except PyErr Unit
  futures_time : Except PyErr Nat
  futures_account : Except PyErr ScriptAccountInfo
  futures_account_balance : Except PyErr (List BalanceEntry)

/-- Console records printed by test_credentials.py, in source order; the
four account prints (lines 32-35) are one record carrying the three
capability flags. -/
inductive CredLog where
  | testing
  | connectivity (pingMs : ℚ)
  | serverTimeOk (epochSec : Nat)
  | accountReceived (canTrade canWithdraw canDeposit : Bool)
  | usdtBalance (b : String)
  | noUsdtFound
  | allPassed
  | credTestFailed (msg : String)
deriving DecidableEq, Repr

/-- Lines 7-47 of test_credentials.py: the body of the try block of
`test_api_credentials`. The same four remote calls as `test_connection`,
but the connectivity success line prints right after the ping (before the
server-time call); the first exception is returned with the records printed
so far (the body itself prints no error). -/
def credSequence (pingMs : ℚ) (sc : ScriptClientBehavior) :
    List CredLog × Option PyErr :=
  match sc.futures_ping with
  | Except.error e => ([CredLog.testing], some e)
  | Except.ok _ =>
    match sc.futures_time with
    | Except.error e => ([CredLog.testing, CredLog.connectivity pingMs], some e)
    | Except.ok t =>
      match sc.futures_account with
      | Except.error e =>
          ([CredLog.testing, CredLog.connectivity pingMs,
            CredLog.serverTimeOk (t / 1000)], some e)
      | Except.ok acct =>
        match sc.futures_account_balance with
        | Except.error e =>
            ([CredLog.testing, CredLog.connectivity pingMs,
              CredLog.serverTimeOk (t / 1000),
              CredLog.accountReceived acct.canTrade acct.canWithdraw
                acct.canDeposit], some e)
        | Except.ok balance =>
          match balance.find? (fun item => item.asset == "USDT") with
          | some usdt =>
              ([CredLog.testing, CredLog.connectivity pingMs,
                CredLog.serverTimeOk (t / 1000),
                CredLog.accountReceived acct.canTrade acct.canWithdraw
                  acct.canDeposit,
                CredLog.usdtBalance usdt.balance, CredLog.allPassed], none)
          | none =>
              ([CredLog.testing, CredLog.connectivity pingMs,
                CredLog.serverTimeOk (t / 1000),
                CredLog.accountReceived acct.canTrade acct.canWithdraw
                  acct.canDeposit,
                CredLog.noUsdtFound, CredLog.allPassed], none)

/-- The first exception the script probe meets, in source order. -/
def scriptFirstFailure (sc : ScriptClientBehavior) : Option PyErr :=
  match sc.futures_ping with
  | Except.error e => some e
  | Except.ok _ =>
    match sc.futures_time with
    | Except.error e => some e
    | Except.ok _ =>
      match sc.futures_account with
      | Except.error e => some e
      | Except.ok _ =>
        match sc.futures_account_balance with
        | Except.error e => some e
        | Except.ok _ => none

/-- Lines 6-51 of test_credentials.py: `test_api_credentials`. The whole
sequence runs inside try/except Exception; on success it returns True, and
on any exception it prints the "[ERROR] Credential Test Failed" record and
returns False — the exception is caught inside the probe and never reaches
its caller. -/
def test_api_credentials (pingMs : ℚ) (sc : ScriptClientBehavior) :
    List CredLog × Bool :=
  match credSequence pingMs sc with
  | (logs, none) => (logs, true)
  | (logs, some e) => (logs ++ [CredLog.credTestFailed (errMessage e)], false)

/-- Script-probe behaviour: ping succeeds, the server-time call raises a
generic transport exception. -/
def scriptTimeFail : ScriptClientBehavior :=
  { futures_ping := Except.ok ()
    futures_time := Except.error (PyErr.runtimeError "Connection aborted.")
    futures_account := Except.ok { canTrade := true, canWithdraw := true,
                                   canDeposit := true }
    futures_account_balance := Except.ok [] }

lemma pyFloat_error_shape (x : PyNum) (e : PyErr)
    (h : pyFloat x = Except.error e) : ∃ m, e = PyErr.valueError m := by
  cases x with
  | float q => exact Except.noConfusion h
  | str s =>
    simp only [pyFloat] at h
    split at h
    next q hp => exact Except.noConfusion h
    next hp => exact ⟨_, (Except.error.inj h).symm⟩

lemma validateAndBuild_error_shape (s sd ot : String) (q : PyNum)
    (pr : Option PyNum) (e : PyErr)
    (h : validateAndBuild s sd ot q pr = Except.error e) :
    ∃ m, e = PyErr.valueError m := by
  unfold validateAndBuild at h
  by_cases h1 : pyEndsWith (pyNormalize s) "USDT" = false
  · rw [if_pos h1] at h; exact ⟨_, (Except.error.inj h).symm⟩
  · rw [if_neg h1] at h
    by_cases h2 : pyNormalize sd ∉ (["BUY", "SELL"] : List String)
    · rw [if_pos h2] at h; exact ⟨_, (Except.error.inj h).symm⟩
    · rw [if_neg h2] at h
      cases hq : pyFloat q with
      | error e2 =>
        rw [hq] at h; simp only [] at h
        obtain ⟨m, rfl⟩ := pyFloat_error_shape q e2 hq
        exact ⟨m, (Except.error.inj h).symm⟩
      | ok v =>
        rw [hq] at h; simp only [] at h
        by_cases h3 : v ≤ 0
        · rw [if_pos h3] at h; exact ⟨_, (Except.error.inj h).symm⟩
        · rw [if_neg h3] at h
          by_cases h4 : pyNormalize ot ∉ (["MARKET", "LIMIT"] : List String)
          · rw [if_pos h4] at h; exact ⟨_, (Except.error.inj h).symm⟩
          · rw [if_neg h4] at h
            by_cases h5 : pyNormalize ot = "LIMIT"
            · rw [if_pos h5] at h
              cases hpr : pr with
              | none =>
                rw [hpr] at h; simp only [] at h
                exact ⟨_, (Except.error.inj h).symm⟩
              | some pv =>
                rw [hpr] at h; simp only [] at h
                cases hp : pyFloat pv with
                | error e3 =>
                  rw [hp] at h; simp only [] at h
                  obtain ⟨m, rfl⟩ := pyFloat_error_shape pv e3 hp
                  exact ⟨m, (Except.error.inj h).symm⟩
                | ok pq =>
                  rw [hp] at h; simp only [] at h
                  by_cases h6 : pq ≤ 0
                  · rw [if_pos h6] at h; exact ⟨_, (Except.error.inj h).symm⟩
                  · rw [if_neg h6] at h; exact Except.noConfusion h
            · rw [if_neg h5] at h; exact Except.noConfusion h

/-- Inversion: everything that must have held, and the shape the request
dict must have, when the validation chain accepts. -/
lemma validateAndBuild_ok_inv (s sd ot : String) (q : PyNum)
    (pr : Option PyNum) (p : OrderParams)
    (h : validateAndBuild s sd ot q pr = Except.ok p) :
    pyEndsWith (pyNormalize s) "USDT" = true ∧
    p.symbol = pyNormalize s ∧ p.side = pyNormalize sd ∧
    p.type = pyNormalize ot ∧
    pyFloat q = Except.ok p.quantity ∧ ¬ p.quantity ≤ 0 ∧
    (pyNormalize ot = "LIMIT" →
      ∃ pv pq, pr = some pv ∧ pyFloat pv = Except.ok pq ∧ ¬ pq ≤ 0 ∧
        p.price = some pq ∧ p.timeInForce = some "GTC") ∧
    (pyNormalize ot ≠ "LIMIT" → p.price = none ∧ p.timeInForce = none) := by
  unfold validateAndBuild at h
  by_cases h1 : pyEndsWith (pyNormalize s) "USDT" = false
  · rw [if_pos h1] at h; exact Except.noConfusion h
  · rw [if_neg h1] at h
    by_cases h2 : pyNormalize sd ∉ (["BUY", "SELL"] : List String)
    · rw [if_pos h2] at h; exact Except.noConfusion h
    · rw [if_neg h2] at h
      cases hq : pyFloat q with
      | error e2 => rw [hq] at h; simp only [] at h; exact Except.noConfusion h
      | ok v =>
        rw [hq] at h; simp only [] at h
        by_cases h3 : v ≤ 0
        · rw [if_pos h3] at h; exact Except.noConfusion h
        · rw [if_neg h3] at h
          by_cases h4 : pyNormalize ot ∉ (["MARKET", "LIMIT"] : List String)
          · rw [if_pos h4] at h; exact Except.noConfusion h
          · rw [if_neg h4] at h
            by_cases h5 : pyNormalize ot = "LIMIT"
            · rw [if_pos h5] at h
              cases hpr : pr with
              | none =>
                rw [hpr] at h; simp only [] at h
                exact Except.noConfusion h
              | some pv =>
                rw [hpr] at h; simp only [] at h
                cases hp : pyFloat pv with
                | error e3 =>
                  rw [hp] at h; simp only [] at h
                  exact Except.noConfusion h
                | ok pq =>
                  rw [hp] at h; simp only [] at h
                  by_cases h6 : pq ≤ 0
                  · rw [if_pos h6] at h; exact Except.noConfusion h
                  · rw [if_neg h6] at h
                    obtain rfl := (Except.ok.inj h).symm
                    refine ⟨by simpa using h1, rfl, rfl, rfl, rfl, h3, ?_, ?_⟩
                    · exact fun _ => ⟨pv, pq, rfl, hp, h6, rfl, rfl⟩
                    · intro hne; exact absurd h5 hne
            · rw [if_neg h5] at h
              obtain rfl := (Except.ok.inj h).symm
              exact ⟨by simpa using h1, rfl, rfl, rfl, rfl, h3,
                fun hl => absurd hl h5, fun _ => ⟨rfl, rfl⟩⟩

lemma place_order_sent_of_error
    (net : OrderParams → Except PyErr OrderResponse)
    (s sd ot : String) (q : PyNum) (pr : Option PyNum) (e : PyErr)
    (h : validateAndBuild s sd ot q pr = Except.error e) :
    (place_order net s sd ot q pr).sent = [] := by
  simp [place_order, h]

lemma place_order_outcome_of_error
    (net : OrderParams → Except PyErr OrderResponse)
    (s sd ot : String) (q : PyNum) (pr : Option PyNum) (e : PyErr)
    (h : validateAndBuild s sd ot q pr = Except.error e) :
    (place_order net s sd ot q pr).outcome
      = Except.error (PyErr.runtimeError (wrapMsg e)) := by
  simp [place_order, h]

lemma logLevel_logExc (e : PyErr) : logLevel (logExc e) = LogLevel.error := by
  cases e <;> rfl

/-- Claim C1: when the uppercased, trimmed symbol does not end in "USDT",
the validation chain of `place_order` raises the symbol ValueError before
anything else happens, nothing is handed to `futures_create_order`, and the
call fails. -/
theorem place_order_rejects_non_usdt_symbol
    (net : OrderParams → Except PyErr OrderResponse)
    (s sd ot : String) (q : PyNum) (pr : Option PyNum)
    (hs : pyEndsWith (pyNormalize s) "USDT" = false) :
    validateAndBuild s sd ot q pr
      = Except.error (PyErr.valueError "Symbol must be a USDT-M pair (e.g., BTCUSDT)") ∧
    (place_order net s sd ot q pr).sent = [] ∧
    (place_order net s sd ot q pr).outcome
      = Except.error (PyErr.runtimeError
          "Order failed: Symbol must be a USDT-M pair (e.g., BTCUSDT)") := by
  have h : validateAndBuild s sd ot q pr
      = Except.error (PyErr.valueError "Symbol must be a USDT-M pair (e.g., BTCUSDT)") := by
    unfold validateAndBuild
    rw [if_pos hs]
  exact ⟨h, place_order_sent_of_error net s sd ot q pr _ h,
    place_order_outcome_of_error net s sd ot q pr _ h⟩

/-- Witness for C1 at the concrete input BTCUSD / BUY / MARKET / 1. -/
theorem place_order_rejects_non_usdt_symbol_witness :
    validateAndBuild "BTCUSD" "BUY" "MARKET" (PyNum.float 1) none
      = Except.error (PyErr.valueError "Symbol must be a USDT-M pair (e.g., BTCUSDT)") ∧
    (place_order netStub "BTCUSD" "BUY" "MARKET" (PyNum.float 1) none).sent = [] ∧
    (place_order netStub "BTCUSD" "BUY" "MARKET" (PyNum.float 1) none).outcome
      = Except.error (PyErr.runtimeError
          "Order failed: Symbol must be a USDT-M pair (e.g., BTCUSDT)") :=
  place_order_rejects_non_usdt_symbol netStub "BTCUSD" "BUY" "MARKET"
    (PyNum.float 1) none (by decide)

/-- Claim C4: a quantity whose coercion succeeds with a non-positive value
makes the validation chain raise a ValueError whatever the other fields
are, and nothing is handed to `futures_create_order`. -/
theorem place_order_rejects_nonpositive_quantity
    (net : OrderParams → Except PyErr OrderResponse)
    (s sd ot : String) (q : PyNum) (pr : Option PyNum) (v : ℚ)
    (hq : pyFloat q = Except.ok v) (hv : v ≤ 0) :
    (∃ m, validateAndBuild s sd ot q pr = Except.error (PyErr.valueError m)) ∧
    (place_order net s sd ot q pr).sent = [] := by
  have hnotok : ∀ p, validateAndBuild s sd ot q pr ≠ Except.ok p := by
    intro p hp
    obtain ⟨-, -, -, -, hq2, hv2, -, -⟩ := validateAndBuild_ok_inv s sd ot q pr p hp
    rw [hq] at hq2
    exact hv2 ((Except.ok.injEq _ _).mp hq2 ▸ hv)
  cases hres : validateAndBuild s sd ot q pr with
  | ok p => exact absurd hres (hnotok p)
  | error e =>
    obtain ⟨m, rfl⟩ := validateAndBuild_error_shape s sd ot q pr e hres
    exact ⟨⟨m, rfl⟩, place_order_sent_of_error net s sd ot q pr _ hres⟩

/-- Witness for C4 at quantity −1 on an otherwise valid order. -/
theorem place_order_rejects_nonpositive_quantity_witness :
    (∃ m, validateAndBuild "btcusdt" "buy" "market" (PyNum.float (-1)) none
      = Except.error (PyErr.valueError m)) ∧
    (place_order netStub "btcusdt" "buy" "market" (PyNum.float (-1)) none).sent = [] :=
  place_order_rejects_nonpositive_quantity netStub "btcusdt" "buy" "market"
    (PyNum.float (-1)) none (-1) rfl (by decide)

/-- Claim C3: when the normalised order type is LIMIT and the price is
either absent or coerces to a non-positive value, the validation chain
raises a ValueError and nothing is handed to `futures_create_order`. -/
theorem place_order_rejects_bad_limit_price
    (net : OrderParams → Except PyErr OrderResponse)
    (s sd ot : String) (q : PyNum) (pr : Option PyNum)
    (hot : pyNormalize ot = "LIMIT")
    (hpr : pr = none ∨ ∃ pv v, pr = some pv ∧ pyFloat pv = Except.ok v ∧ v ≤ 0) :
    (∃ m, validateAndBuild s sd ot q pr = Except.error (PyErr.valueError m)) ∧
    (place_order net s sd ot q pr).sent = [] := by
  have hnotok : ∀ p, validateAndBuild s sd ot q pr ≠ Except.ok p := by
    intro p hp
    obtain ⟨-, -, -, -, -, -, hlim, -⟩ := validateAndBuild_ok_inv s sd ot q pr p hp
    obtain ⟨pv, pq, hpr2, hpf, hpq, -, -⟩ := hlim hot
    rcases hpr with h0 | ⟨pv2, v2, h0, hpf2, hv2⟩
    · rw [h0] at hpr2; exact Option.noConfusion hpr2
    · rw [h0] at hpr2
      obtain rfl := Option.some.inj hpr2
      rw [hpf2] at hpf
      exact hpq (Except.ok.inj hpf ▸ hv2)
  cases hres : validateAndBuild s sd ot q pr with
  | ok p => exact absurd hres (hnotok p)
  | error e =>
    obtain ⟨m, rfl⟩ := validateAndBuild_error_shape s sd ot q pr e hres
    exact ⟨⟨m, rfl⟩, place_order_sent_of_error net s sd ot q pr _ hres⟩

/-- Witness for C3 at a limit order with no price supplied. -/
theorem place_order_rejects_bad_limit_price_witness :
    (∃ m, validateAndBuild "btcusdt" "buy" "limit" (PyNum.float 2) none
      = Except.error (PyErr.valueError m)) ∧
    (place_order netStub "btcusdt" "buy" "limit" (PyNum.float 2) none).sent = [] :=
  place_order_rejects_bad_limit_price netStub "btcusdt" "buy" "limit"
    (PyNum.float 2) none (by decide) (Or.inl rfl)

/-- Claim C5: a request accepted for a MARKET order carries no price and no
time-in-force field, only the normalised symbol, side, type and the coerced
quantity, even when a price argument was supplied. -/
theorem market_order_request_fields
    (s sd ot : String) (q : PyNum) (pr : Option PyNum) (p : OrderParams)
    (hot : pyNormalize ot = "MARKET")
    (hok : validateAndBuild s sd ot q pr = Except.ok p) :
    p.price = none ∧ p.timeInForce = none ∧
    p.symbol = pyNormalize s ∧ p.side = pyNormalize sd ∧
    p.type = "MARKET" ∧ pyFloat q = Except.ok p.quantity := by
  obtain ⟨-, hsym, hside, htype, hq, -, -, hnl⟩ :=
    validateAndBuild_ok_inv s sd ot q pr p hok
  have hne : pyNormalize ot ≠ "LIMIT" := by rw [hot]; decide
  obtain ⟨hp, ht⟩ := hnl hne
  exact ⟨hp, ht, hsym, hside, by rw [htype, hot], hq⟩

/-- Witness for C5: a MARKET order with a price argument supplied still
produces a request without price or timeInForce. -/
theorem market_order_request_fields_witness :
    marketReq.price = none ∧ marketReq.timeInForce = none ∧
    marketReq.symbol = pyNormalize "btcusdt" ∧
    marketReq.side = pyNormalize "buy" ∧
    marketReq.type = "MARKET" ∧
    pyFloat (PyNum.float 2) = Except.ok marketReq.quantity :=
  market_order_request_fields "btcusdt" "buy" "market" (PyNum.float 2)
    (some (PyNum.float 3)) marketReq (by decide) (by decide)

/-- Claim C2: once validation accepted, a `BinanceAPIException` from the
remote call is logged and re-raised as `RuntimeError` carrying the status
code and message, and every other remote exception is logged and re-raised
as `RuntimeError` carrying the original message. -/
theorem place_order_remote_failure_translation
    (net : OrderParams → Except PyErr OrderResponse)
    (s sd ot : String) (q : PyNum) (pr : Option PyNum) (p : OrderParams)
    (hok : validateAndBuild s sd ot q pr = Except.ok p) :
    (∀ code msg, net p = Except.error (PyErr.apiException code msg) →
      (place_order net s sd ot q pr).outcome
        = Except.error (PyErr.runtimeError
            ("API Error " ++ toString code ++ ": " ++ msg)) ∧
      BotLog.orderError ("API Error " ++ toString code ++ ": " ++ msg)
        ∈ (place_order net s sd ot q pr).logs) ∧
    (∀ e, net p = Except.error e → (∀ code msg, e ≠ PyErr.apiException code msg) →
      (place_order net s sd ot q pr).outcome
        = Except.error (PyErr.runtimeError ("Order failed: " ++ errMessage e)) ∧
      BotLog.orderError ("Order failed: " ++ errMessage e)
        ∈ (place_order net s sd ot q pr).logs) := by
  constructor
  · intro code msg hnet
    simp [place_order, hok, hnet, wrapMsg]
  · intro e hnet hne
    have hw : wrapMsg e = "Order failed: " ++ errMessage e := by
      cases e with
      | apiException c m => exact absurd rfl (hne c m)
      | valueError m => rfl
      | runtimeError m => rfl
    simp [place_order, hok, hnet, hw]

/-- Witness for C2: an exchange that rejects with code −2019 yields the
wrapped RuntimeError and an error log record. -/
theorem place_order_remote_failure_translation_witness :
    (place_order netApiReject "btcusdt" "buy" "market" (PyNum.float 2) none).outcome
      = Except.error (PyErr.runtimeError
          ("API Error " ++ toString (-2019 : Int) ++ ": " ++ "Margin is insufficient.")) ∧
    BotLog.orderError ("API Error " ++ toString (-2019 : Int) ++ ": " ++ "Margin is insufficient.")
      ∈ (place_order netApiReject "btcusdt" "buy" "market" (PyNum.float 2) none).logs :=
  (place_order_remote_failure_translation netApiReject "btcusdt" "buy" "market"
    (PyNum.float 2) none marketReq (by decide)).1 (-2019) "Margin is insufficient." rfl

/-- Claim C8: lowercase and uppercase spellings of the same order produce
the identical normalised request. -/
theorem place_order_case_insensitive :
    validateAndBuild "btcusdt" "buy" "market" (PyNum.float (1/1000)) none
      = validateAndBuild "BTCUSDT" "BUY" "MARKET" (PyNum.float (1/1000)) none ∧
    validateAndBuild "btcusdt" "buy" "market" (PyNum.float (1/1000)) none
      = Except.ok { symbol := "BTCUSDT", side := "BUY", type := "MARKET",
                    quantity := 1/1000 } := by
  have e1 : pyNormalize "btcusdt" = "BTCUSDT" := by decide
  have e2 : pyNormalize "buy" = "BUY" := by decide
  have e3 : pyNormalize "market" = "MARKET" := by decide
  have e4 : pyNormalize "BTCUSDT" = "BTCUSDT" := by decide
  have e5 : pyNormalize "BUY" = "BUY" := by decide
  have e6 : pyNormalize "MARKET" = "MARKET" := by decide
  have hq : ¬ ((1 : ℚ)/1000 ≤ 0) := by norm_num
  have h1 : validateAndBuild "btcusdt" "buy" "market" (PyNum.float (1/1000)) none
      = Except.ok { symbol := "BTCUSDT", side := "BUY", type := "MARKET",
                    quantity := 1/1000 } := by
    unfold validateAndBuild
    rw [e1, e2, e3]
    rw [if_neg (by decide), if_neg (by decide)]
    simp only [pyFloat]
    rw [if_neg hq, if_neg (by decide), if_neg (by decide)]
  have h2 : validateAndBuild "BTCUSDT" "BUY" "MARKET" (PyNum.float (1/1000)) none
      = Except.ok { symbol := "BTCUSDT", side := "BUY", type := "MARKET",
                    quantity := 1/1000 } := by
    unfold validateAndBuild
    rw [e4, e5, e6]
    rw [if_neg (by decide), if_neg (by decide)]
    simp only [pyFloat]
    rw [if_neg hq, if_neg (by decide), if_neg (by decide)]
  exact ⟨h1.trans h2.symm, h1⟩

/-- Claim C9: the validation step is a pure function of the five declared
arguments: two runs against arbitrary (and arbitrarily different) external
worlds send exactly the same requests, namely the output of the pure
validation function. -/
theorem validation_deterministic_stateless
    (s sd ot : String) (q : PyNum) (pr : Option PyNum)
    (net net2 : OrderParams → Except PyErr OrderResponse) :
    (place_order net s sd ot q pr).sent = (place_order net2 s sd ot q pr).sent ∧
    (place_order net s sd ot q pr).sent
      = (match validateAndBuild s sd ot q pr with
         | Except.ok p => [p]
         | Except.error _ => []) := by
  cases h : validateAndBuild s sd ot q pr with
  | ok p =>
    cases hn : net p <;> cases hn2 : net2 p <;> simp [place_order, h, hn, hn2]
  | error e => simp [place_order, h]

/-- Claim C10: every exception escaping `place_order` is a RuntimeError
(never the underlying ValueError or BinanceAPIException): validation
failures, coercion failures and remote failures are all wrapped uniformly. -/
theorem place_order_errors_are_runtime
    (net : OrderParams → Except PyErr OrderResponse)
    (s sd ot : String) (q : PyNum) (pr : Option PyNum) (e : PyErr)
    (h : (place_order net s sd ot q pr).outcome = Except.error e) :
    ∃ m, e = PyErr.runtimeError m := by
  unfold place_order at h
  cases hv : validateAndBuild s sd ot q pr with
  | error e2 =>
    rw [hv] at h; simp only [] at h
    exact ⟨_, (Except.error.inj h).symm⟩
  | ok p =>
    rw [hv] at h; simp only [] at h
    cases hn : net p with
    | ok r => rw [hn] at h; simp only [] at h; exact Except.noConfusion h
    | error e2 => rw [hn] at h; simp only [] at h; exact ⟨_, (Except.error.inj h).symm⟩

/-- Witness for C10 at a failing validation input. -/
theorem place_order_errors_are_runtime_witness :
    ∃ m, PyErr.runtimeError "Order failed: Symbol must be a USDT-M pair (e.g., BTCUSDT)"
      = PyErr.runtimeError m :=
  place_order_errors_are_runtime netStub "BTCUSD" "BUY" "MARKET" (PyNum.float 1) none
    (PyErr.runtimeError "Order failed: Symbol must be a USDT-M pair (e.g., BTCUSDT)")
    (by decide)

/-- Claim C6: when every probe call succeeds but the balance list has no
USDT entry, `test_connection` completes without raising, logs exactly the
three info records followed by the missing-balance warning, and emits no
error-level record. -/
theorem probe_missing_balance_soft (pingMs : ℚ) (t : Nat) (a : AccountInfo)
    (bs : List BalanceEntry) (c : ClientBehavior)
    (hp : c.futures_ping = Except.ok ()) (ht : c.futures_time = Except.ok t)
    (ha : c.futures_account = Except.ok a)
    (hb : c.futures_account_balance = Except.ok bs)
    (hno : bs.find? (fun item => item.asset == "USDT") = none) :
    (test_connection pingMs c).2 = none ∧
    (test_connection pingMs c).1
      = [LogEvent.connSuccess pingMs, LogEvent.serverTime (t / 1000),
         LogEvent.accountStatus a.canTrade, LogEvent.noUsdtBalance] ∧
    logLevel LogEvent.noUsdtBalance = LogLevel.warning ∧
    ∀ ev ∈ (test_connection pingMs c).1, logLevel ev ≠ LogLevel.error := by
  have hrun : test_connection pingMs c
      = ([LogEvent.connSuccess pingMs, LogEvent.serverTime (t / 1000),
          LogEvent.accountStatus a.canTrade, LogEvent.noUsdtBalance], none) := by
    simp [test_connection, hp, ht, ha, hb, hno]
  refine ⟨by rw [hrun], by rw [hrun], rfl, ?_⟩
  rw [hrun]
  intro ev hev
  simp only [List.mem_cons, List.not_mem_nil, or_false] at hev
  rcases hev with rfl | rfl | rfl | rfl <;> simp [logLevel]

/-- Witness for C6 on a concrete all-success client behaviour with no USDT
balance entry. -/
theorem probe_missing_balance_soft_witness :
    (test_connection 5 probeNoUsdt).2 = none ∧
    (test_connection 5 probeNoUsdt).1
      = [LogEvent.connSuccess 5, LogEvent.serverTime (1717171717000 / 1000),
         LogEvent.accountStatus ({ canTrade := true } : AccountInfo).canTrade,
         LogEvent.noUsdtBalance] ∧
    logLevel LogEvent.noUsdtBalance = LogLevel.warning ∧
    ∀ ev ∈ (test_connection 5 probeNoUsdt).1, logLevel ev ≠ LogLevel.error :=
  probe_missing_balance_soft 5 1717171717000 { canTrade := true }
    [{ asset := "BTC", balance := "1.0" }] probeNoUsdt rfl rfl rfl rfl (by decide)

/-- In trading_bot.py's `test_connection`, the first exception any step
raises is logged as the final, error-level record and re-raised unchanged;
nothing of the sequence runs after it. -/
lemma test_connection_failure_raises (pingMs : ℚ) (c : ClientBehavior) (e : PyErr)
    (h : firstFailure c = some e) :
    (test_connection pingMs c).2 = some e ∧
    (test_connection pingMs c).1.getLast? = some (logExc e) ∧
    logLevel (logExc e) = LogLevel.error := by
  obtain ⟨p, t, a, b⟩ := c
  simp only [firstFailure] at h
  simp only [test_connection]
  cases p with
  | error e1 =>
    simp only [] at h
    obtain rfl := Option.some.inj h
    exact ⟨rfl, rfl, logLevel_logExc _⟩
  | ok u =>
    simp only [] at h
    cases t with
    | error e1 =>
      simp only [] at h
      obtain rfl := Option.some.inj h
      exact ⟨rfl, rfl, logLevel_logExc _⟩
    | ok tv =>
      simp only [] at h
      cases a with
      | error e1 =>
        simp only [] at h
        obtain rfl := Option.some.inj h
        exact ⟨rfl, rfl, logLevel_logExc _⟩
      | ok av =>
        simp only [] at h
        cases b with
        | error e1 =>
          simp only [] at h
          obtain rfl := Option.some.inj h
          exact ⟨rfl, rfl, logLevel_logExc _⟩
        | ok bv =>
          simp only [] at h
          exact Option.noConfusion h

/-- Claim C7 counterexample: in test_credentials.py the probe catches every
exception itself. On a failing server-time call the try-body raises a
transport exception, yet `test_api_credentials` returns False to its caller
with the error printed as its last record — the exception is swallowed
inside the cited probe, so it does not propagate to the caller as claimed. -/
theorem probe_failure_handling_counterexample :
    credSequence 5 scriptTimeFail
      = ([CredLog.testing, CredLog.connectivity 5],
         some (PyErr.runtimeError "Connection aborted.")) ∧
    test_api_credentials 5 scriptTimeFail
      = ([CredLog.testing, CredLog.connectivity 5,
          CredLog.credTestFailed "Connection aborted."], false) := by
  constructor <;> rfl

/-- Claim C7, amended: any exception at any step aborts the remainder of
the sequence and is recorded as an error in both probes; trading_bot.py's
`test_connection` re-raises it unchanged to its caller, while
test_credentials.py's `test_api_credentials` catches it and returns False
to its caller instead of propagating the exception. -/
theorem probe_failure_handling :
    (∀ (pingMs : ℚ) (c : ClientBehavior) (e : PyErr), firstFailure c = some e →
      (test_connection pingMs c).2 = some e ∧
      (test_connection pingMs c).1.getLast? = some (logExc e) ∧
      logLevel (logExc e) = LogLevel.error) ∧
    (∀ (pingMs : ℚ) (sc : ScriptClientBehavior) (e : PyErr),
      scriptFirstFailure sc = some e →
      (credSequence pingMs sc).2 = some e ∧
      (test_api_credentials pingMs sc).2 = false ∧
      (test_api_credentials pingMs sc).1.getLast?
        = some (CredLog.credTestFailed (errMessage e))) := by
  constructor
  · exact test_connection_failure_raises
  · intro pingMs sc e h
    obtain ⟨p, t, a, b⟩ := sc
    simp only [scriptFirstFailure] at h
    simp only [credSequence, test_api_credentials]
    cases p with
    | error e1 =>
      simp only [] at h
      obtain rfl := Option.some.inj h
      exact ⟨rfl, rfl, rfl⟩
    | ok u =>
      simp only [] at h
      cases t with
      | error e1 =>
        simp only [] at h
        obtain rfl := Option.some.inj h
        exact ⟨rfl, rfl, rfl⟩
      | ok tv =>
        simp only [] at h
        cases a with
        | error e1 =>
          simp only [] at h
          obtain rfl := Option.some.inj h
          exact ⟨rfl, rfl, rfl⟩
        | ok av =>
          simp only [] at h
          cases b with
          | error e1 =>
            simp only [] at h
            obtain rfl := Option.some.inj h
            exact ⟨rfl, rfl, rfl⟩
          | ok bv =>
            simp only [] at h
            exact Option.noConfusion h

/-- Witness for the amended C7: a failing server-time call re-raises from
`test_connection` but is swallowed into a False return by
`test_api_credentials`. -/
theorem probe_failure_handling_witness :
    ((test_connection 5 probeTimeFail).2
        = some (PyErr.apiException (-1021) "Timestamp outside recvWindow") ∧
      (test_connection 5 probeTimeFail).1.getLast?
        = some (logExc (PyErr.apiException (-1021) "Timestamp outside recvWindow")) ∧
      logLevel (logExc (PyErr.apiException (-1021) "Timestamp outside recvWindow"))
        = LogLevel.error) ∧
    ((credSequence 5 scriptTimeFail).2
        = some (PyErr.runtimeError "Connection aborted.") ∧
      (test_api_credentials 5 scriptTimeFail).2 = false ∧
      (test_api_credentials 5 scriptTimeFail).1.getLast?
        = some (CredLog.credTestFailed
            (errMessage (PyErr.runtimeError "Connection aborted.")))) :=
  ⟨probe_failure_handling.1 5 probeTimeFail
      (PyErr.apiException (-1021) "Timestamp outside recvWindow") rfl,
   probe_failure_handling.2 5 scriptTimeFail
      (PyErr.runtimeError "Connection aborted.") rfl⟩
